import Mathlib

/-!
Shallow embedding of the model-routing core of the `nanobot` repository
(`nanobot/providers/routed_provider.py` together with the routing part of
`nanobot/config/schema.py`), followed by theorems about the routing
classifier, the decision engine and the dispatch loop.

Modelling conventions:
* Python `float` values that appear in scoring (dimension scores, weights,
  tier boundaries, steepness, threshold) are embedded as exact rationals
  `ℚ`; the logistic confidence, which uses `math.exp`, lives in `ℝ`.
* Python strings are Lean `String`s; `str.lower()` is modelled character by
  character, and the substring test `kw in text` is infix matching on the
  underlying character lists.
* The numeric interpolation inside human-readable `reason` strings
  (`f"(score={score:.3f} ...)"`) is elided: no verified property depends on
  the digits, only on the `"routing disabled"` literal and on which branch
  produced the reason.
-/

namespace Nanobot

/-- Complexity tier, `Tier = Literal["SIMPLE", "MEDIUM", "COMPLEX", "REASONING"]`. -/
inductive Tier where
  | SIMPLE
  | MEDIUM
  | COMPLEX
  | REASONING
deriving DecidableEq

/-- Name of a tier, used in reason strings. -/
def tierName : Tier → String
  | .SIMPLE => "SIMPLE"
  | .MEDIUM => "MEDIUM"
  | .COMPLEX => "COMPLEX"
  | .REASONING => "REASONING"

/-- Concrete model+provider target (`RouteTarget` dataclass). -/
structure RouteTarget where
  model : String
  provider : String
deriving DecidableEq

/-- Dedupe key of a target: the `(provider, model)` pair used by
`QueryRouter._dedupe_targets`. -/
def targetKey (t : RouteTarget) : String × String := (t.provider, t.model)

/-- One weighted scoring dimension result (`DimensionScore` dataclass). -/
structure DimensionScore where
  name : String
  score : ℚ
  signal : Option String
deriving DecidableEq

/-- Weighted classifier output (`ScoringResult` dataclass). -/
structure ScoringResult where
  score : ℚ
  tier : Option Tier
  confidence : ℝ
  signals : List String
  agentic_score : ℚ

/-- Route result with an ordered attempt chain (`RouteDecision` dataclass). -/
structure RouteDecision where
  primary : RouteTarget
  chain : List RouteTarget
  reason : String
  tier : Option Tier
  score : ℚ
  confidence : ℝ
  signals : Option (List String)
  agentic_score : ℚ

/-- Token threshold config (`TokenCountThresholdsConfig`). -/
structure TokenCountThresholds where
  simple : ℕ
  complex : ℕ

/-- Weighted score boundaries between tiers (`TierBoundariesConfig`). -/
structure TierBoundaries where
  simple_medium : ℚ
  medium_complex : ℚ
  complex_reasoning : ℚ

/-- Weighted scoring parameters (`RoutingScoringConfig`); only the fields read
by `classify_by_rules` are embedded.  Keyword lists and the dimension-weight
dictionary are configuration data, so they are plain fields here. -/
structure ScoringConfig where
  token_count_thresholds : TokenCountThresholds
  code_keywords : List String
  reasoning_keywords : List String
  simple_keywords : List String
  technical_keywords : List String
  creative_keywords : List String
  imperative_verbs : List String
  constraint_indicators : List String
  output_format_keywords : List String
  reference_keywords : List String
  negation_keywords : List String
  domain_specific_keywords : List String
  agentic_task_keywords : List String
  dimension_weights : List (String × ℚ)
  tier_boundaries : TierBoundaries
  confidence_steepness : ℚ
  confidence_threshold : ℚ

/-- Primary+fallback routing targets for one tier (`RoutingTierTargetConfig`). -/
structure TierTarget where
  primary : RouteTarget
  fallback : List RouteTarget
deriving DecidableEq

/-- Tier-to-target mapping (`RoutingTiersConfig`). -/
structure RoutingTiers where
  simple : Option TierTarget
  medium : Option TierTarget
  complex : Option TierTarget
  reasoning : Option TierTarget

/-! ### Text helpers -/

/-- Character-wise model of Python `str.lower()`. -/
def lowerString (s : String) : String := ⟨s.data.map Char.toLower⟩

/-- Infix test on character lists (helper for the substring test). -/
def listInfix (needle : List Char) : List Char → Bool
  | [] => needle.isEmpty
  | c :: t => needle.isPrefixOf (c :: t) || listInfix needle t

/-- Model of the Python substring test `needle in haystack`. -/
def containsSub (haystack needle : String) : Bool :=
  listInfix needle.data haystack.data

/-- The keywords of `keywords` whose lowercased form occurs in `text`
(the list comprehension `[kw for kw in keywords if kw.lower() in text]`). -/
def kwMatches (text : String) (keywords : List String) : List String :=
  keywords.filter (fun kw => containsSub text (lowerString kw))

/-- Lowercased combined text `f"{system_prompt or ''} {prompt}".lower()`. -/
def combinedText (system_prompt : Option String) (prompt : String) : String :=
  lowerString ((system_prompt.getD "") ++ " " ++ prompt)

/-- Lowercased user text `prompt.lower()`. -/
def userTextL (prompt : String) : String := lowerString prompt

/-! ### Dimension scorers -/

/-- Token-count dimension (`score_token_count`). -/
def score_token_count (estimated_tokens : ℕ) (tSimple tComplex : ℕ) : DimensionScore :=
  if estimated_tokens < tSimple then
    ⟨"tokenCount", -1, some "short"⟩
  else if tComplex < estimated_tokens then
    ⟨"tokenCount", 1, some "long"⟩
  else
    ⟨"tokenCount", 0, none⟩

/-- Signal string for a keyword dimension: the label plus at most three of the
matched keywords, comma separated, in parentheses. -/
def kwSignal (label : String) (ms : List String) : String :=
  label ++ " (" ++ String.intercalate ", " (ms.take 3) ++ ")"

/-- Keyword dimension scorer (`score_keyword_match`): no match gives the
"none" score, at least `tLow` matches the "low" score, at least `tHigh`
matches the "high" score. -/
def score_keyword_match (text : String) (keywords : List String)
    (name label : String) (tLow tHigh : ℕ) (sNone sLow sHigh : ℚ) : DimensionScore :=
  let ms := kwMatches text keywords
  if tHigh ≤ ms.length then
    ⟨name, sHigh, some (kwSignal label ms)⟩
  else if tLow ≤ ms.length then
    ⟨name, sLow, some (kwSignal label ms)⟩
  else
    ⟨name, sNone, none⟩

/-- Scanner for `then` preceded only by non-newline characters, modelling the
`.*then` part of the regex `first.*then` (where `.` does not match `\n`). -/
def searchThen : List Char → Bool
  | [] => false
  | c :: t => "then".data.isPrefixOf (c :: t) || (c ≠ '\n' && searchThen t)

/-- Scanner for the regex `first.*then` (`re.search` semantics). -/
def searchFirstThen : List Char → Bool
  | [] => false
  | c :: t =>
    ("first".data.isPrefixOf (c :: t) && searchThen ((c :: t).drop 5))
      || searchFirstThen t

/-- Head-is-ASCII-digit test, modelling one `\d`. -/
def headIsDigit : List Char → Bool
  | [] => false
  | c :: _ => c.isDigit

/-- Scanner for the regex `step \d`. -/
def searchStepDigit : List Char → Bool
  | [] => false
  | c :: t =>
    ("step ".data.isPrefixOf (c :: t) && headIsDigit ((c :: t).drop 5))
      || searchStepDigit t

/-- Whitespace class `\s` (ASCII part). -/
def isSpaceChar (c : Char) : Bool :=
  c = ' ' || c = '\t' || c = '\n' || c = '\r' || c = Char.ofNat 11 || c = Char.ofNat 12

/-- Scanner for the regex `\d\.\s`. -/
def searchNumDot : List Char → Bool
  | c1 :: c2 :: c3 :: t =>
    (c1.isDigit && c2 = '.' && isSpaceChar c3) || searchNumDot (c2 :: c3 :: t)
  | _ => false

/-- Multi-step pattern dimension (`score_multi_step`); the `re.IGNORECASE`
flag is modelled by lowercasing the scanned text. -/
def score_multi_step (text : String) : DimensionScore :=
  let l := (lowerString text).data
  if searchFirstThen l || searchStepDigit l || searchNumDot l then
    ⟨"multiStepPatterns", 1/2, some "multi-step"⟩
  else
    ⟨"multiStepPatterns", 0, none⟩

/-- Question-complexity dimension (`score_question_complexity`): counts `?`
in the raw user prompt. -/
def score_question_complexity (prompt : String) : DimensionScore :=
  let count := (prompt.data.filter (fun c => c = '?')).length
  if 3 < count then
    ⟨"questionComplexity", 1/2, some "questions"⟩
  else
    ⟨"questionComplexity", 0, none⟩

/-- Agentic-task dimension (`score_agentic_task`): bucketed match count plus
the separate agentic score. -/
def score_agentic_task (text : String) (keywords : List String) :
    DimensionScore × ℚ :=
  let ms := kwMatches text keywords
  let count := ms.length
  if 4 ≤ count then
    (⟨"agenticTask", 1, some (kwSignal "agentic" ms)⟩, 1)
  else if 3 ≤ count then
    (⟨"agenticTask", 3/5, some (kwSignal "agentic" ms)⟩, 3/5)
  else if 1 ≤ count then
    (⟨"agenticTask", 1/5, some (kwSignal "agentic-light" ms)⟩, 1/5)
  else
    (⟨"agenticTask", 0, none⟩, 0)

/-! ### Classifier -/

/-- Logistic confidence calibration (`calibrate_confidence`):
`1 / (1 + e^(-steepness * distance))`. -/
noncomputable def calibrate (distance steepness : ℝ) : ℝ :=
  1 / (1 + Real.exp (-steepness * distance))

/-- The ordered dimension list built by `classify_by_rules` (fourteen scorers
plus the appended agentic dimension).  Per-dimension match-count thresholds
and score triples are the literals from the source. -/
def dimensionsOf (cfg : ScoringConfig) (prompt : String)
    (system_prompt : Option String) (estimated_tokens : ℕ) : List DimensionScore :=
  let text := combinedText system_prompt prompt
  let user_text := userTextL prompt
  [ score_token_count estimated_tokens cfg.token_count_thresholds.simple
      cfg.token_count_thresholds.complex,
    score_keyword_match text cfg.code_keywords "codePresence" "code" 1 2 0 (1/2) 1,
    score_keyword_match user_text cfg.reasoning_keywords "reasoningMarkers" "reasoning"
      1 2 0 (7/10) 1,
    score_keyword_match text cfg.technical_keywords "technicalTerms" "technical"
      2 4 0 (1/2) 1,
    score_keyword_match text cfg.creative_keywords "creativeMarkers" "creative"
      1 2 0 (1/2) (7/10),
    score_keyword_match text cfg.simple_keywords "simpleIndicators" "simple"
      1 2 0 (-1) (-1),
    score_multi_step text,
    score_question_complexity prompt,
    score_keyword_match text cfg.imperative_verbs "imperativeVerbs" "imperative"
      1 2 0 (3/10) (1/2),
    score_keyword_match text cfg.constraint_indicators "constraintCount" "constraints"
      1 3 0 (3/10) (7/10),
    score_keyword_match text cfg.output_format_keywords "outputFormat" "format"
      1 2 0 (2/5) (7/10),
    score_keyword_match text cfg.reference_keywords "referenceComplexity" "references"
      1 2 0 (3/10) (1/2),
    score_keyword_match text cfg.negation_keywords "negationComplexity" "negation"
      2 3 0 (3/10) (1/2),
    score_keyword_match text cfg.domain_specific_keywords "domainSpecificity"
      "domain-specific" 1 2 0 (1/2) (4/5),
    (score_agentic_task text cfg.agentic_task_keywords).1 ]

/-- Collected non-`None` signals, in dimension order. -/
def signalsOf (cfg : ScoringConfig) (prompt : String)
    (system_prompt : Option String) (estimated_tokens : ℕ) : List String :=
  (dimensionsOf cfg prompt system_prompt estimated_tokens).filterMap (fun d => d.signal)

/-- Separate agentic score reported in the result. -/
def agenticScoreOf (cfg : ScoringConfig) (prompt : String)
    (system_prompt : Option String) : ℚ :=
  (score_agentic_task (combinedText system_prompt prompt) cfg.agentic_task_keywords).2

/-- Weighted aggregation: `Σ dim.score * weights.get(dim.name, 0.0)`. -/
def weightedScoreOf (cfg : ScoringConfig) (prompt : String)
    (system_prompt : Option String) (estimated_tokens : ℕ) : ℚ :=
  (dimensionsOf cfg prompt system_prompt estimated_tokens).foldl
    (fun acc d => acc + d.score * ((cfg.dimension_weights.lookup d.name).getD 0)) 0

/-- Number of reasoning keywords matched by the lowercased user text alone
(the override trigger `reasoning_matches`). -/
def reasoning_match_count (cfg : ScoringConfig) (prompt : String) : ℕ :=
  (kwMatches (userTextL prompt) cfg.reasoning_keywords).length

/-- Number of distinct reasoning keywords matched by the user text. -/
def distinct_reasoning_match_count (cfg : ScoringConfig) (prompt : String) : ℕ :=
  (kwMatches (userTextL prompt) cfg.reasoning_keywords).dedup.length

/-- The tier/distance pair produced by the tier-boundary if-chain of
`classify_by_rules`. -/
def tierAndDistance (b : TierBoundaries) (ws : ℚ) : Tier × ℚ :=
  if ws < b.simple_medium then
    (.SIMPLE, b.simple_medium - ws)
  else if ws < b.medium_complex then
    (.MEDIUM, min (ws - b.simple_medium) (b.medium_complex - ws))
  else if ws < b.complex_reasoning then
    (.COMPLEX, min (ws - b.medium_complex) (b.complex_reasoning - ws))
  else
    (.REASONING, ws - b.complex_reasoning)

/-- The calibrated confidence of the boundary path:
`calibrate_confidence(distance_from_boundary, steepness)`. -/
noncomputable def boundaryConfidence (cfg : ScoringConfig) (prompt : String)
    (system_prompt : Option String) (estimated_tokens : ℕ) : ℝ :=
  calibrate
    ((tierAndDistance cfg.tier_boundaries
        (weightedScoreOf cfg prompt system_prompt estimated_tokens)).2 : ℝ)
    (cfg.confidence_steepness : ℝ)

/-- The classifier `QueryRouter.classify_by_rules`. -/
noncomputable def classify_by_rules (cfg : ScoringConfig) (prompt : String)
    (system_prompt : Option String) (estimated_tokens : ℕ) : ScoringResult :=
  let ws := weightedScoreOf cfg prompt system_prompt estimated_tokens
  let sigs := signalsOf cfg prompt system_prompt estimated_tokens
  let ag := agenticScoreOf cfg prompt system_prompt
  if 2 ≤ reasoning_match_count cfg prompt then
    { score := ws
      tier := some .REASONING
      confidence :=
        max (calibrate ((max ws (3/10) : ℚ) : ℝ) (cfg.confidence_steepness : ℝ)) (85/100)
      signals := sigs
      agentic_score := ag }
  else
    let td := tierAndDistance cfg.tier_boundaries ws
    let conf := boundaryConfidence cfg prompt system_prompt estimated_tokens
    if conf < (cfg.confidence_threshold : ℝ) then
      { score := ws, tier := none, confidence := conf, signals := sigs,
        agentic_score := ag }
    else
      { score := ws, tier := some td.1, confidence := conf, signals := sigs,
        agentic_score := ag }

/-! ### Routing decision engine -/

/-- Weighted scoring classifier + tier mapper (`QueryRouter`). -/
structure QueryRouter where
  default_target : RouteTarget
  global_fallback_targets : List RouteTarget
  scoring_config : ScoringConfig
  tier_targets : RoutingTiers

/-- Tier-to-target lookup (`QueryRouter._get_tier_target`). -/
def QueryRouter.getTierTarget (r : QueryRouter) : Tier → Option TierTarget
  | .SIMPLE => r.tier_targets.simple
  | .MEDIUM => r.tier_targets.medium
  | .COMPLEX => r.tier_targets.complex
  | .REASONING => r.tier_targets.reasoning

/-- Worker of `QueryRouter._dedupe_targets`: the `seen` set of
`(provider, model)` keys is made explicit. -/
def dedupeGo (seen : List (String × String)) : List RouteTarget → List RouteTarget
  | [] => []
  | t :: rest =>
    if targetKey t ∈ seen then
      dedupeGo seen rest
    else
      t :: dedupeGo (targetKey t :: seen) rest

/-- Order-preserving first-occurrence dedup by `(provider, model)`
(`QueryRouter._dedupe_targets`). -/
def dedupeTargets (targets : List RouteTarget) : List RouteTarget :=
  dedupeGo [] targets

/-- The routing decision engine (`QueryRouter.decide`). -/
noncomputable def QueryRouter.decide (r : QueryRouter)
    (query system_prompt : Option String) (estimated_tokens : ℕ)
    (preferred_target : Option RouteTarget) (force_default : Bool) : RouteDecision :=
  let effective_default := preferred_target.getD r.default_target
  if force_default then
    { primary := effective_default
      chain := dedupeTargets (effective_default :: r.global_fallback_targets)
      reason := "routing disabled"
      tier := none, score := 0, confidence := 0, signals := none, agentic_score := 0 }
  else
    let scoring :=
      classify_by_rules r.scoring_config (query.getD "") system_prompt estimated_tokens
    let sel : RouteTarget × List RouteTarget × String :=
      match scoring.tier with
      | some t =>
        match r.getTierTarget t with
        | some tt =>
          (tt.primary, tt.fallback, "weighted scoring -> " ++ tierName t)
        | none =>
          (effective_default, [],
            "weighted scoring -> " ++ tierName t ++ ", but tier target missing; using default")
      | none => (effective_default, [], "weighted scoring ambiguous, using default")
    { primary := sel.1
      chain := dedupeTargets (sel.1 :: (sel.2.1 ++ r.global_fallback_targets))
      reason := sel.2.2
      tier := scoring.tier
      score := scoring.score
      confidence := scoring.confidence
      signals := some scoring.signals
      agentic_score := scoring.agentic_score }

/-! ### Dispatch executor (`RoutedLLMProvider.chat`) -/

/-- Modelled from the spec: the backend response shape of §6
(`LLMResponse` lives in `nanobot/providers/base.py`, outside the embedded
sources).  Only the fields the dispatch loop reads are kept; an unset
`model` is the empty string, matching the falsiness test `if not
response.model`. -/
structure LLMResponse where
  content : String
  finish_reason : String
  model : String
  provider : String
deriving DecidableEq

/-- One item of structured message content: a dict with `type == "text"` and
a string `text` field, or anything else (non-dict items, non-text parts). -/
inductive ContentItem where
  | textPart (s : String)
  | other
deriving DecidableEq

/-- Message content as the dispatch code discriminates it: a plain string, a
structured list of parts, or anything else (for example a missing or `None`
content). -/
inductive MsgContent where
  | str (s : String)
  | parts (items : List ContentItem)
  | other
deriving DecidableEq

/-- A chat message, reduced to the fields the router reads. -/
structure Message where
  role : String
  content : MsgContent
deriving DecidableEq

/-- The text parts collected from structured content
(`text_parts` in `_extract_latest_user_message`). -/
def textParts (items : List ContentItem) : List String :=
  items.filterMap (fun it =>
    match it with
    | .textPart s => some s
    | .other => none)

/-- Loop body of `_extract_latest_user_message`, walking the already reversed
message list. -/
def extractGo : List Message → String
  | [] => ""
  | m :: rest =>
    if m.role = "user" then
      match m.content with
      | .str s => s
      | .parts items =>
        let tps := textParts items
        if tps.isEmpty then extractGo rest else String.intercalate " " tps
      | .other => extractGo rest
    else
      extractGo rest

/-- `RoutedLLMProvider._extract_latest_user_message`: latest user text. -/
def extract_latest_user_message (messages : List Message) : String :=
  extractGo messages.reverse

/-- `RoutedLLMProvider._extract_system_prompt`: first system message with
string content. -/
def extract_system_prompt (messages : List Message) : Option String :=
  messages.findSome? (fun m =>
    if m.role = "system" then
      match m.content with
      | .str s => some s
      | _ => none
    else
      none)

/-- `RoutedLLMProvider._estimate_tokens`: `max(1, len(text) // 4)`. -/
def estimate_tokens (text : String) : ℕ := max 1 (text.length / 4)

/-- `RoutedLLMProvider._is_provider_error`: error finish reason, or content
matching the anchored pattern `^Error calling LLM:`. -/
def is_provider_error (resp : LLMResponse) : Bool :=
  resp.finish_reason == "error" || "Error calling LLM:".data.isPrefixOf resp.content.data

/-- Stamping done after a backend call: `response.provider = provider_name`
and, when `response.model` is unset, `response.model = target.model`. -/
def stampResponse (provider_name target_model : String) (resp : LLMResponse) : LLMResponse :=
  { resp with
    provider := provider_name
    model := if resp.model = "" then target_model else resp.model }

/-- The synthesized no-route failure returned when the chain is exhausted
without any attempt. -/
def noRouteResponse (default_target : RouteTarget) : LLMResponse :=
  { content := "Error calling LLM: no valid provider/model route found."
    finish_reason := "error"
    model := default_target.model
    provider := default_target.provider }

/-- The chain-walking loop of `RoutedLLMProvider.chat`.  The backend client
cache and the per-provider configuration lookup of `_get_provider` are
abstracted into the oracle `getp` (the provider name when a client can be
built, `none` when the target must be skipped); the external network call of
the built client is the oracle `call`.  `acc` is the running `last_error`. -/
def chatChain (getp : RouteTarget → Option String) (call : RouteTarget → LLMResponse)
    (default_target : RouteTarget) :
    List RouteTarget → Option LLMResponse → LLMResponse
  | [], some e => e
  | [], none => noRouteResponse default_target
  | t :: rest, acc =>
    match getp t with
    | none => chatChain getp call default_target rest acc
    | some pname =>
      let resp := stampResponse pname t.model (call t)
      if is_provider_error resp then
        chatChain getp call default_target rest (some resp)
      else
        resp

/-- The routing decision computed inside `RoutedLLMProvider.chat`: latest
user text and system prompt are extracted from the messages, the token count
estimated from their concatenation, the preferred target built from the
`model` argument (provider looked up through the configuration oracle
`lookupProv`, falling back to the default target's provider), and routing is
forced off when `routing_enabled` is false. -/
noncomputable def chatDecision (r : QueryRouter) (lookupProv : String → Option String)
    (routing_enabled : Bool) (model : Option String) (messages : List Message) :
    RouteDecision :=
  let query := extract_latest_user_message messages
  let system_prompt := extract_system_prompt messages
  let preferred : Option RouteTarget :=
    model.map (fun m => ⟨m, (lookupProv m).getD r.default_target.provider⟩)
  QueryRouter.decide r (some query) system_prompt
    (estimate_tokens ((system_prompt.getD "") ++ " " ++ query))
    preferred (!routing_enabled)

/-- `RoutedLLMProvider.chat`: compute the decision and walk its chain. -/
noncomputable def chat (r : QueryRouter) (getp : RouteTarget → Option String)
    (call : RouteTarget → LLMResponse) (lookupProv : String → Option String)
    (routing_enabled : Bool) (model : Option String) (messages : List Message) :
    LLMResponse :=
  chatChain getp call r.default_target
    (chatDecision r lookupProv routing_enabled model messages).chain none

/-- The last target of a chain for which a client can be built: the target
whose (error) response an exhausted `chat` call returns. -/
def lastAttempt (getp : RouteTarget → Option String) : List RouteTarget → Option RouteTarget
  | [] => none
  | t :: rest =>
    match lastAttempt getp rest with
    | some u => some u
    | none => if (getp t).isSome then some t else none

/-- A target is exhausted when it is either skipped (no client) or its
stamped response classifies as a provider error. -/
def failOrSkip (getp : RouteTarget → Option String) (call : RouteTarget → LLMResponse)
    (t : RouteTarget) : Bool :=
  match getp t with
  | none => true
  | some pname => is_provider_error (stampResponse pname t.model (call t))

/-! ### Helper lemmas about deduplication -/

theorem mem_dedupeGo {x : RouteTarget} :
    ∀ (seen : List (String × String)) (l : List RouteTarget),
      x ∈ dedupeGo seen l → x ∈ l := by
  intro seen l
  induction l generalizing seen with
  | nil => simp [dedupeGo]
  | cons t rest ih =>
    intro hx
    simp only [dedupeGo] at hx
    split at hx
    · exact List.mem_cons_of_mem _ (ih _ hx)
    · rcases List.mem_cons.mp hx with h | h
      · exact h ▸ List.mem_cons_self _ _
      · exact List.mem_cons_of_mem _ (ih _ h)

theorem dedupeGo_key_not_seen {k : String × String} :
    ∀ (seen : List (String × String)) (l : List RouteTarget),
      k ∈ (dedupeGo seen l).map targetKey → k ∉ seen := by
  intro seen l
  induction l generalizing seen with
  | nil => simp [dedupeGo]
  | cons t rest ih =>
    intro hk
    simp only [dedupeGo] at hk
    split at hk
    · exact ih _ hk
    · rename_i hts
      simp only [List.map_cons, List.mem_cons] at hk
      rcases hk with h | h
      · exact h ▸ hts
      · intro hcon
        exact ih _ h (List.mem_cons_of_mem _ hcon)

theorem dedupeGo_keys_nodup :
    ∀ (seen : List (String × String)) (l : List RouteTarget),
      ((dedupeGo seen l).map targetKey).Nodup := by
  intro seen l
  induction l generalizing seen with
  | nil => simp [dedupeGo]
  | cons t rest ih =>
    simp only [dedupeGo]
    split
    · exact ih _
    · refine List.nodup_cons.mpr ⟨?_, ih _⟩
      intro hmem
      exact dedupeGo_key_not_seen _ _ hmem (List.mem_cons_self _ _)

theorem dedupeTargets_cons (t : RouteTarget) (l : List RouteTarget) :
    dedupeTargets (t :: l) = t :: dedupeGo [targetKey t] l := by
  simp [dedupeTargets, dedupeGo]

theorem mem_dedupeTargets {x : RouteTarget} {l : List RouteTarget}
    (h : x ∈ dedupeTargets l) : x ∈ l :=
  mem_dedupeGo _ _ h

theorem dedupeTargets_keys_nodup (l : List RouteTarget) :
    ((dedupeTargets l).map targetKey).Nodup :=
  dedupeGo_keys_nodup _ _

/-- The chain of every decision is the dedup of its primary consed onto some
tail; this is the shape shared by all branches of `QueryRouter.decide`. -/
theorem decide_chain_shape (r : QueryRouter) (query system_prompt : Option String)
    (estimated_tokens : ℕ) (preferred_target : Option RouteTarget)
    (force_default : Bool) :
    ∃ rest, (r.decide query system_prompt estimated_tokens preferred_target
        force_default).chain
      = dedupeTargets ((r.decide query system_prompt estimated_tokens preferred_target
          force_default).primary :: rest) := by
  unfold QueryRouter.decide
  split
  · exact ⟨r.global_fallback_targets, rfl⟩
  · exact ⟨_, rfl⟩

/-! ### C1: chain well-formedness -/

/-- C1.  For every call to `decide` (any query, system prompt, token
estimate, optional preferred target and force flag), the returned decision's
chain is non-empty, its first element is the decision's primary, and no two
chain elements share the same `(provider, model)` key. -/
theorem decide_chain_wellformed (r : QueryRouter) (query system_prompt : Option String)
    (estimated_tokens : ℕ) (preferred_target : Option RouteTarget)
    (force_default : Bool) :
    (r.decide query system_prompt estimated_tokens preferred_target
        force_default).chain ≠ []
    ∧ (r.decide query system_prompt estimated_tokens preferred_target
        force_default).chain.head?
      = some (r.decide query system_prompt estimated_tokens preferred_target
          force_default).primary
    ∧ ((r.decide query system_prompt estimated_tokens preferred_target
        force_default).chain.map targetKey).Nodup := by
  obtain ⟨rest, hshape⟩ :=
    decide_chain_shape r query system_prompt estimated_tokens preferred_target
      force_default
  rw [hshape, dedupeTargets_cons]
  exact ⟨List.cons_ne_nil _ _, rfl, dedupeTargets_cons _ rest ▸ dedupeTargets_keys_nodup _⟩

/-! ### C6: force-default short-circuit -/

/-- C6.  With `force_default = true` the decision is exactly the default
route: primary is the preferred target when given (else the table default),
the chain is the dedup of that effective default followed by the global
fallbacks, the reason is `"routing disabled"`, and the outcome does not
depend on query, system prompt or token estimate (the classifier is never
consulted). -/
theorem decide_force_default (r : QueryRouter) (query query₂ system_prompt system_prompt₂ :
      Option String) (estimated_tokens estimated_tokens₂ : ℕ)
    (preferred_target : Option RouteTarget) :
    r.decide query system_prompt estimated_tokens preferred_target true
      = { primary := preferred_target.getD r.default_target
          chain := dedupeTargets
            (preferred_target.getD r.default_target :: r.global_fallback_targets)
          reason := "routing disabled"
          tier := none, score := 0, confidence := 0, signals := none,
          agentic_score := 0 }
    ∧ r.decide query system_prompt estimated_tokens preferred_target true
      = r.decide query₂ system_prompt₂ estimated_tokens₂ preferred_target true := by
  have h : ∀ (q s : Option String) (n : ℕ),
      r.decide q s n preferred_target true
        = { primary := preferred_target.getD r.default_target
            chain := dedupeTargets
              (preferred_target.getD r.default_target :: r.global_fallback_targets)
            reason := "routing disabled"
            tier := none, score := 0, confidence := 0, signals := none,
            agentic_score := 0 } := fun _ _ _ => rfl
  exact ⟨h query system_prompt estimated_tokens,
    (h query system_prompt estimated_tokens).trans
      (h query₂ system_prompt₂ estimated_tokens₂).symm⟩

/-! ### Helper lemmas about the logistic calibration -/

theorem calibrate_pos (distance steepness : ℝ) : 0 < calibrate distance steepness := by
  unfold calibrate
  positivity

theorem calibrate_lt_one (distance steepness : ℝ) : calibrate distance steepness < 1 := by
  unfold calibrate
  have hexp := Real.exp_pos (-steepness * distance)
  rw [div_lt_one (by linarith)]
  linarith

theorem half_le_calibrate {distance steepness : ℝ} (hs : 0 ≤ steepness)
    (hd : 0 ≤ distance) : 1 / 2 ≤ calibrate distance steepness := by
  unfold calibrate
  have hexp : Real.exp (-steepness * distance) ≤ 1 := by
    calc Real.exp (-steepness * distance) ≤ Real.exp 0 :=
          Real.exp_le_exp.mpr (by nlinarith)
    _ = 1 := Real.exp_zero
  have hpos := Real.exp_pos (-steepness * distance)
  rw [div_le_div_iff₀ (by norm_num) (by linarith)]
  linarith

/-! ### C2: reasoning-override precedence -/

/-- C2.  Whenever the lowercased user text alone matches at least two
distinct keywords of the configured reasoning list, the classifier forces
`tier = REASONING` — whatever range the weighted score falls in and whatever
the ambiguity threshold is — and reports
`confidence = max(calibrate(max(weightedScore, 0.3), steepness), 0.85)`. -/
theorem classify_reasoning_override (cfg : ScoringConfig) (prompt : String)
    (system_prompt : Option String) (estimated_tokens : ℕ)
    (h : 2 ≤ distinct_reasoning_match_count cfg prompt) :
    (classify_by_rules cfg prompt system_prompt estimated_tokens).tier
      = some Tier.REASONING
    ∧ (classify_by_rules cfg prompt system_prompt estimated_tokens).confidence
      = max (calibrate
            ((max (weightedScoreOf cfg prompt system_prompt estimated_tokens)
              (3/10) : ℚ) : ℝ)
            (cfg.confidence_steepness : ℝ))
          (85/100) := by
  have hcount : 2 ≤ reasoning_match_count cfg prompt :=
    le_trans h (List.Sublist.length_le (List.dedup_sublist _))
  unfold classify_by_rules
  rw [if_pos hcount]
  exact ⟨rfl, rfl⟩

/-! ### C7: tier-boundary monotonicity -/

/-- Position of a tier in the ordering SIMPLE < MEDIUM < COMPLEX < REASONING. -/
def tierRank : Tier → ℕ
  | .SIMPLE => 0
  | .MEDIUM => 1
  | .COMPLEX => 2
  | .REASONING => 3

/-- C7.  With ascending tier boundaries, the tier assigned by the boundary
if-chain never moves backward as the weighted score grows. -/
theorem tier_mapping_monotone (b : TierBoundaries) (s₁ s₂ : ℚ)
    (hasc : b.simple_medium < b.medium_complex ∧ b.medium_complex < b.complex_reasoning)
    (h : s₁ ≤ s₂) :
    tierRank (tierAndDistance b s₁).1 ≤ tierRank (tierAndDistance b s₂).1 := by
  obtain ⟨h₁, h₂⟩ := hasc
  unfold tierAndDistance
  split_ifs <;> simp [tierRank] <;> linarith

/-! ### C9: the boundary path is never ambiguous at thresholds up to 1/2 -/

/-- C9.  When the reasoning override does not fire, given ascending
boundaries and positive steepness, the distance from the boundary is
non-negative, the calibrated confidence is therefore at least 1/2, and so
with `confidence_threshold ≤ 1/2` the classifier never reports the ambiguous
`tier = none`. -/
theorem classify_never_ambiguous_at_low_threshold (cfg : ScoringConfig)
    (prompt : String) (system_prompt : Option String) (estimated_tokens : ℕ)
    (hov : reasoning_match_count cfg prompt < 2)
    (hs : 0 < cfg.confidence_steepness)
    (hasc : cfg.tier_boundaries.simple_medium < cfg.tier_boundaries.medium_complex
      ∧ cfg.tier_boundaries.medium_complex < cfg.tier_boundaries.complex_reasoning) :
    0 ≤ (tierAndDistance cfg.tier_boundaries
        (weightedScoreOf cfg prompt system_prompt estimated_tokens)).2
    ∧ (1 / 2 : ℝ) ≤ boundaryConfidence cfg prompt system_prompt estimated_tokens
    ∧ (cfg.confidence_threshold ≤ 1 / 2 →
        (classify_by_rules cfg prompt system_prompt estimated_tokens).tier ≠ none) := by
  have hdist : 0 ≤ (tierAndDistance cfg.tier_boundaries
      (weightedScoreOf cfg prompt system_prompt estimated_tokens)).2 := by
    unfold tierAndDistance
    split_ifs with h₁ h₂ h₃
    · simp only
      linarith
    · simp only [le_min_iff]
      constructor <;> linarith
    · simp only [le_min_iff]
      constructor <;> linarith
    · simp only
      linarith
  have hconf : (1 / 2 : ℝ) ≤ boundaryConfidence cfg prompt system_prompt estimated_tokens := by
    unfold boundaryConfidence
    exact half_le_calibrate (by exact_mod_cast hs.le) (by exact_mod_cast hdist)
  refine ⟨hdist, hconf, fun hth => ?_⟩
  unfold classify_by_rules
  rw [if_neg (by omega)]
  have hthr : (cfg.confidence_threshold : ℝ) ≤ 1 / 2 := by
    calc (cfg.confidence_threshold : ℝ) ≤ ((1 / 2 : ℚ) : ℝ) := by exact_mod_cast hth
    _ = 1 / 2 := by norm_num
  rw [if_neg (not_lt.mpr (le_trans hthr hconf))]
  simp

/-! ### C3: the ambiguity gate -/

/-- Scoring configuration exercising the ambiguity gate: threshold 1 with
two reasoning keywords configured. -/
def cfgGate : ScoringConfig :=
  { token_count_thresholds := ⟨400, 2500⟩
    code_keywords := []
    reasoning_keywords := ["why", "how"]
    simple_keywords := []
    technical_keywords := []
    creative_keywords := []
    imperative_verbs := []
    constraint_indicators := []
    output_format_keywords := []
    reference_keywords := []
    negation_keywords := []
    domain_specific_keywords := []
    agentic_task_keywords := []
    dimension_weights := []
    tier_boundaries := ⟨-1, 1, 2⟩
    confidence_steepness := 5
    confidence_threshold := 1 }

/-- C3 counterexample.  A classification can report a calibrated confidence
strictly below `confidence_threshold` and still carry a non-`none` tier:
when the reasoning override fires, its confidence `max(calibrate(..), 0.85)`
is below a threshold of 1 while the tier is forced to REASONING.  So "every
classification whose calibrated confidence is below the threshold has
`tier = none`" fails on the code. -/
theorem ambiguity_gate_counterexample :
    (classify_by_rules cfgGate "why how" none 1).confidence
      < ((cfgGate.confidence_threshold : ℚ) : ℝ)
    ∧ (classify_by_rules cfgGate "why how" none 1).tier ≠ none := by
  have hcount : 2 ≤ reasoning_match_count cfgGate "why how" := by decide
  unfold classify_by_rules
  rw [if_pos hcount]
  constructor
  · show max (calibrate _ _) (85/100) < ((cfgGate.confidence_threshold : ℚ) : ℝ)
    have h1 : ((cfgGate.confidence_threshold : ℚ) : ℝ) = 1 := by
      norm_num [cfgGate]
    rw [h1]
    exact max_lt (calibrate_lt_one _ _) (by norm_num)
  · simp

/-- C3 amended.  When the reasoning override does not fire and the
calibrated boundary confidence is below `confidence_threshold`, the
classifier reports `tier = none` while score, confidence and signals are
still reported, and `decide` (with `force_default = false`) falls back to
the effective default with no tier fallbacks:
`chain = dedupe([effectiveDefault] + globalFallbacks)`. -/
theorem ambiguity_gate_amended (r : QueryRouter) (query system_prompt : Option String)
    (estimated_tokens : ℕ) (preferred_target : Option RouteTarget)
    (hov : reasoning_match_count r.scoring_config (query.getD "") < 2)
    (hconf : boundaryConfidence r.scoring_config (query.getD "") system_prompt
        estimated_tokens
      < (r.scoring_config.confidence_threshold : ℝ)) :
    (classify_by_rules r.scoring_config (query.getD "") system_prompt
        estimated_tokens).tier = none
    ∧ (classify_by_rules r.scoring_config (query.getD "") system_prompt
        estimated_tokens).score
      = weightedScoreOf r.scoring_config (query.getD "") system_prompt estimated_tokens
    ∧ (classify_by_rules r.scoring_config (query.getD "") system_prompt
        estimated_tokens).confidence
      = boundaryConfidence r.scoring_config (query.getD "") system_prompt estimated_tokens
    ∧ (classify_by_rules r.scoring_config (query.getD "") system_prompt
        estimated_tokens).signals
      = signalsOf r.scoring_config (query.getD "") system_prompt estimated_tokens
    ∧ (r.decide query system_prompt estimated_tokens preferred_target false).primary
      = preferred_target.getD r.default_target
    ∧ (r.decide query system_prompt estimated_tokens preferred_target false).chain
      = dedupeTargets
          (preferred_target.getD r.default_target :: r.global_fallback_targets) := by
  have hcl : classify_by_rules r.scoring_config (query.getD "") system_prompt
      estimated_tokens
      = { score := weightedScoreOf r.scoring_config (query.getD "") system_prompt
            estimated_tokens
          tier := none
          confidence := boundaryConfidence r.scoring_config (query.getD "") system_prompt
            estimated_tokens
          signals := signalsOf r.scoring_config (query.getD "") system_prompt
            estimated_tokens
          agentic_score := agenticScoreOf r.scoring_config (query.getD "")
            system_prompt } := by
    unfold classify_by_rules
    rw [if_neg (by omega), if_pos hconf]
  refine ⟨by rw [hcl], by rw [hcl], by rw [hcl], by rw [hcl], ?_, ?_⟩ <;>
  · unfold QueryRouter.decide
    simp only [Bool.false_eq_true, if_false, hcl, List.nil_append]

/-! ### C4: which text each keyword dimension is scored against -/

/-- The `i`-th dimension of the classifier's dimension list (order as built
by `classify_by_rules`: 0 tokenCount, 1 codePresence, 2 reasoningMarkers,
3 technicalTerms, 4 creativeMarkers, 5 simpleIndicators, 6 multiStepPatterns,
7 questionComplexity, 8 imperativeVerbs, 9 constraintCount, 10 outputFormat,
11 referenceComplexity, 12 negationComplexity, 13 domainSpecificity,
14 agenticTask). -/
def dimAt (cfg : ScoringConfig) (prompt : String) (system_prompt : Option String)
    (estimated_tokens : ℕ) (i : ℕ) : DimensionScore :=
  (dimensionsOf cfg prompt system_prompt estimated_tokens).getD i ⟨"", 0, none⟩

/-- Scoring configuration with a single simple-indicator keyword, used to
show that the simple-indicators dimension reads the combined text. -/
def cfgSimpleKw : ScoringConfig :=
  { token_count_thresholds := ⟨400, 2500⟩
    code_keywords := []
    reasoning_keywords := []
    simple_keywords := ["quick"]
    technical_keywords := []
    creative_keywords := []
    imperative_verbs := []
    constraint_indicators := []
    output_format_keywords := []
    reference_keywords := []
    negation_keywords := []
    domain_specific_keywords := []
    agentic_task_keywords := []
    dimension_weights := []
    tier_boundaries := ⟨-1, 1, 2⟩
    confidence_steepness := 5
    confidence_threshold := 1 }

/-- C4 counterexample.  The claim says the simple-indicators dimension is
scored against the user text only, so the system text could not affect it;
in the code it is scored against the combined text: with user text `"hi"`
and simple keyword `"quick"`, adding the system text `"quick"` changes the
simple-indicators dimension score. -/
theorem dimension_text_sources_counterexample :
    dimAt cfgSimpleKw "hi" none 1 5 ≠ dimAt cfgSimpleKw "hi" (some "quick") 1 5 := by
  decide

/-- C4 amended.  The reasoning-markers dimension is a function of the
lowercased user text alone (the system text has no effect on it), and it
counts matches of the configured reasoning keywords against that user text;
every other keyword dimension — including simple indicators — is a function
of the lowercased combined text `systemText + " " + userText`. -/
theorem dimension_text_sources (cfg : ScoringConfig) (p₁ p₂ : String)
    (s₁ s₂ : Option String) (t₁ t₂ : ℕ) :
    (userTextL p₁ = userTextL p₂ →
      dimAt cfg p₁ s₁ t₁ 2 = dimAt cfg p₂ s₂ t₂ 2)
    ∧ (combinedText s₁ p₁ = combinedText s₂ p₂ →
      ∀ i ∈ ([1, 3, 4, 5, 8, 9, 10, 11, 12, 13, 14] : List ℕ),
        dimAt cfg p₁ s₁ t₁ i = dimAt cfg p₂ s₂ t₂ i)
    ∧ dimAt cfg p₁ s₁ t₁ 2
      = score_keyword_match (userTextL p₁) cfg.reasoning_keywords "reasoningMarkers"
          "reasoning" 1 2 0 (7/10) 1 := by
  refine ⟨fun hu => ?_, fun hc => ?_, rfl⟩
  · exact congrArg
      (fun tx => score_keyword_match tx cfg.reasoning_keywords "reasoningMarkers"
        "reasoning" 1 2 0 (7/10) 1) hu
  · intro i hi
    simp only [List.mem_cons, List.not_mem_nil, or_false] at hi
    rcases hi with rfl | rfl | rfl | rfl | rfl | rfl | rfl | rfl | rfl | rfl | rfl
    · exact congrArg
        (fun tx => score_keyword_match tx cfg.code_keywords "codePresence" "code"
          1 2 0 (1/2) 1) hc
    · exact congrArg
        (fun tx => score_keyword_match tx cfg.technical_keywords "technicalTerms"
          "technical" 2 4 0 (1/2) 1) hc
    · exact congrArg
        (fun tx => score_keyword_match tx cfg.creative_keywords "creativeMarkers"
          "creative" 1 2 0 (1/2) (7/10)) hc
    · exact congrArg
        (fun tx => score_keyword_match tx cfg.simple_keywords "simpleIndicators"
          "simple" 1 2 0 (-1) (-1)) hc
    · exact congrArg
        (fun tx => score_keyword_match tx cfg.imperative_verbs "imperativeVerbs"
          "imperative" 1 2 0 (3/10) (1/2)) hc
    · exact congrArg
        (fun tx => score_keyword_match tx cfg.constraint_indicators "constraintCount"
          "constraints" 1 3 0 (3/10) (7/10)) hc
    · exact congrArg
        (fun tx => score_keyword_match tx cfg.output_format_keywords "outputFormat"
          "format" 1 2 0 (2/5) (7/10)) hc
    · exact congrArg
        (fun tx => score_keyword_match tx cfg.reference_keywords "referenceComplexity"
          "references" 1 2 0 (3/10) (1/2)) hc
    · exact congrArg
        (fun tx => score_keyword_match tx cfg.negation_keywords "negationComplexity"
          "negation" 2 3 0 (3/10) (1/2)) hc
    · exact congrArg
        (fun tx => score_keyword_match tx cfg.domain_specific_keywords
          "domainSpecificity" "domain-specific" 1 2 0 (1/2) (4/5)) hc
    · exact congrArg
        (fun tx => (score_agentic_task tx cfg.agentic_task_keywords).1) hc

/-! ### C8: a preferred target loses to a configured tier -/

/-- C8.  With a preferred target supplied, `force_default = false`, a
non-`none` classified tier and a configured tier entry, every chain element
comes from the tier primary, the tier fallbacks or the global fallbacks —
so the preferred target occurs in the chain only if it coincides (as a
`(provider, model)` pair) with one of those, and is never appended as an
extra fallback. -/
theorem decide_preferred_not_pinned (r : QueryRouter)
    (query system_prompt : Option String) (estimated_tokens : ℕ)
    (p : RouteTarget) (tr : Tier) (tt : TierTarget)
    (htier : (classify_by_rules r.scoring_config (query.getD "") system_prompt
        estimated_tokens).tier = some tr)
    (htt : r.getTierTarget tr = some tt) :
    (∀ x ∈ (r.decide query system_prompt estimated_tokens (some p) false).chain,
      x = tt.primary ∨ x ∈ tt.fallback ∨ x ∈ r.global_fallback_targets)
    ∧ ((p ≠ tt.primary ∧ p ∉ tt.fallback ∧ p ∉ r.global_fallback_targets) →
      p ∉ (r.decide query system_prompt estimated_tokens (some p) false).chain) := by
  have hchain : (r.decide query system_prompt estimated_tokens (some p) false).chain
      = dedupeTargets (tt.primary :: (tt.fallback ++ r.global_fallback_targets)) := by
    unfold QueryRouter.decide
    simp only [Bool.false_eq_true, if_false, htier, htt]
  have hmem : ∀ x ∈ (r.decide query system_prompt estimated_tokens (some p) false).chain,
      x = tt.primary ∨ x ∈ tt.fallback ∨ x ∈ r.global_fallback_targets := by
    intro x hx
    rw [hchain] at hx
    have := mem_dedupeTargets hx
    rcases List.mem_cons.mp this with h | h
    · exact Or.inl h
    · rcases List.mem_append.mp h with h | h
      · exact Or.inr (Or.inl h)
      · exact Or.inr (Or.inr h)
  refine ⟨hmem, fun ⟨h₁, h₂, h₃⟩ hp => ?_⟩
  rcases hmem p hp with h | h | h
  · exact h₁ h
  · exact h₂ h
  · exact h₃ h

/-! ### C5: exhausted chains return the last failure or a synthesized error -/

/-- Worker lemma for C5: when every chain target is skipped or fails, the
chain walk returns the stamped response of the last attempted target when
one exists, and otherwise the accumulated `last_error` or, failing that, the
synthesized no-route response. -/
theorem chatChain_exhausted (getp : RouteTarget → Option String)
    (call : RouteTarget → LLMResponse) (dflt : RouteTarget) :
    ∀ (l : List RouteTarget) (acc : Option LLMResponse),
      (∀ t ∈ l, failOrSkip getp call t = true) →
      chatChain getp call dflt l acc
        = match lastAttempt getp l with
          | some tl => stampResponse ((getp tl).getD "") tl.model (call tl)
          | none => match acc with
            | some e => e
            | none => noRouteResponse dflt := by
  intro l
  induction l with
  | nil =>
    intro acc _
    cases acc <;> rfl
  | cons t rest ih =>
    intro acc h
    have ht : failOrSkip getp call t = true := h t (List.mem_cons_self _ _)
    have hrest : ∀ u ∈ rest, failOrSkip getp call u = true :=
      fun u hu => h u (List.mem_cons_of_mem _ hu)
    cases hgp : getp t with
    | none =>
      have hla : lastAttempt getp (t :: rest) = lastAttempt getp rest := by
        simp only [lastAttempt, hgp, Option.isSome_none, Bool.false_eq_true, if_false]
        cases lastAttempt getp rest <;> rfl
      rw [hla]
      simp only [chatChain, hgp]
      exact ih acc hrest
    | some pname =>
      have herr : is_provider_error (stampResponse pname t.model (call t)) = true := by
        unfold failOrSkip at ht
        rw [hgp] at ht
        exact ht
      have hstep : chatChain getp call dflt (t :: rest) acc
          = chatChain getp call dflt rest
              (some (stampResponse pname t.model (call t))) := by
        simp only [chatChain, hgp, herr, if_true]
      rw [hstep, ih _ hrest]
      cases hla : lastAttempt getp rest with
      | some u =>
        have : lastAttempt getp (t :: rest) = some u := by
          simp only [lastAttempt, hla]
        rw [this]
      | none =>
        have : lastAttempt getp (t :: rest) = some t := by
          simp only [lastAttempt, hla, hgp, Option.isSome_some, if_true]
        rw [this]
        simp [hgp]

/-- C5.  When the routing decision's chain is exhausted — every target
either skipped for missing provider configuration or classified as a backend
failure — `chat` returns the stamped error response of the last attempted
target when at least one target was attempted, and otherwise the synthesized
failure naming the configured default target with `finish_reason = "error"`. -/
theorem chat_exhausted_returns_last_error (r : QueryRouter)
    (getp : RouteTarget → Option String) (call : RouteTarget → LLMResponse)
    (lookupProv : String → Option String) (routing_enabled : Bool)
    (model : Option String) (messages : List Message)
    (hfail : ∀ t ∈ (chatDecision r lookupProv routing_enabled model messages).chain,
      failOrSkip getp call t = true) :
    (lastAttempt getp (chatDecision r lookupProv routing_enabled model messages).chain
        = none →
      chat r getp call lookupProv routing_enabled model messages
        = noRouteResponse r.default_target)
    ∧ (∀ tl,
      lastAttempt getp (chatDecision r lookupProv routing_enabled model messages).chain
          = some tl →
      chat r getp call lookupProv routing_enabled model messages
        = stampResponse ((getp tl).getD "") tl.model (call tl)) := by
  have hwalk := chatChain_exhausted getp call r.default_target
    (chatDecision r lookupProv routing_enabled model messages).chain none hfail
  constructor
  · intro hnone
    unfold chat
    rw [hwalk, hnone]
  · intro tl htl
    unfold chat
    rw [hwalk, htl]

/-! ### C10: latest-user-text extraction -/

/-- The text `_extract_latest_user_message` takes from one message, when the
message qualifies: its string content, or the joined text parts of its
structured content when there is at least one. -/
def userTextOf? (m : Message) : Option String :=
  if m.role = "user" then
    match m.content with
    | .str s => some s
    | .parts items =>
      if (textParts items).isEmpty then none
      else some (String.intercalate " " (textParts items))
    | .other => none
  else
    none

/-- The extraction loop returns the first qualifying text of the (already
reversed) message list, or the empty string. -/
theorem extractGo_eq (l : List Message) :
    extractGo l = (l.findSome? userTextOf?).getD "" := by
  induction l with
  | nil => rfl
  | cons m rest ih =>
    simp only [extractGo, List.findSome?_cons]
    by_cases hrole : m.role = "user"
    · rw [if_pos hrole]
      unfold userTextOf?
      rw [if_pos hrole]
      cases m.content with
      | str s => rfl
      | parts items =>
        by_cases hemp : (textParts items).isEmpty
        · simp only [hemp, if_true]
          exact ih
        · simp only [hemp, Bool.false_eq_true, if_false]
          rfl
      | other => exact ih
    · rw [if_neg hrole]
      unfold userTextOf?
      rw [if_neg hrole]
      exact ih

/-- C10.  The user-text extraction used by `chat` returns, walking the
messages from most recent to oldest, the first user-role message with
string content or with structured content containing at least one text part
(joined with spaces); user messages whose structured content has no text
part are skipped; and when no message qualifies it returns the empty
string, in which case `chat` still proceeds, routing with an empty query. -/
theorem extract_latest_user_spec (r : QueryRouter)
    (getp : RouteTarget → Option String) (call : RouteTarget → LLMResponse)
    (lookupProv : String → Option String) (routing_enabled : Bool)
    (model : Option String) (messages : List Message) :
    extract_latest_user_message messages
      = (messages.reverse.findSome? userTextOf?).getD ""
    ∧ (messages.reverse.findSome? userTextOf? = none →
      chat r getp call lookupProv routing_enabled model messages
        = chatChain getp call r.default_target
            (r.decide (some "") (extract_system_prompt messages)
              (estimate_tokens (((extract_system_prompt messages).getD "") ++ " " ++ ""))
              (model.map (fun m => ⟨m, (lookupProv m).getD r.default_target.provider⟩))
              (!routing_enabled)).chain
            none) := by
  have hextract : extract_latest_user_message messages
      = (messages.reverse.findSome? userTextOf?).getD "" :=
    extractGo_eq messages.reverse
  refine ⟨hextract, fun hnone => ?_⟩
  have hq : extract_latest_user_message messages = "" := by
    rw [hextract, hnone]
    rfl
  unfold chat chatDecision
  rw [hq]

/-! ### Concrete fixtures used by the witnesses -/

/-- Scoring configuration with every keyword list empty and threshold 1. -/
def cfgAmb : ScoringConfig :=
  { token_count_thresholds := ⟨400, 2500⟩
    code_keywords := []
    reasoning_keywords := []
    simple_keywords := []
    technical_keywords := []
    creative_keywords := []
    imperative_verbs := []
    constraint_indicators := []
    output_format_keywords := []
    reference_keywords := []
    negation_keywords := []
    domain_specific_keywords := []
    agentic_task_keywords := []
    dimension_weights := []
    tier_boundaries := ⟨-1, 1, 2⟩
    confidence_steepness := 5
    confidence_threshold := 1 }

/-- Scoring configuration with every keyword list empty and threshold 0. -/
def cfgLow : ScoringConfig :=
  { cfgAmb with confidence_threshold := 0 }

/-- Router with no tier targets over `cfgAmb`. -/
def rAmb : QueryRouter :=
  { default_target := ⟨"dm", "dp"⟩
    global_fallback_targets := [⟨"gm", "gp"⟩]
    scoring_config := cfgAmb
    tier_targets := ⟨none, none, none, none⟩ }

/-- Router with a configured REASONING tier over `cfgGate`. -/
def rTier : QueryRouter :=
  { default_target := ⟨"dm", "dp"⟩
    global_fallback_targets := [⟨"gm", "gp"⟩]
    scoring_config := cfgGate
    tier_targets := ⟨none, none, none, some ⟨⟨"rm", "rp"⟩, [⟨"fm", "fp"⟩]⟩⟩ }

/-- Backend oracle that can build a client only for model `"dm"`. -/
def getpW : RouteTarget → Option String :=
  fun t => if t.model = "dm" then some "dp" else none

/-- Backend oracle whose every call fails. -/
def callW : RouteTarget → LLMResponse :=
  fun _ => ⟨"boom", "error", "", ""⟩

/-! ### Witnesses -/

/-- Witness for C2 at a concrete config and prompt with two distinct
reasoning keyword matches. -/
theorem classify_reasoning_override_witness :
    2 ≤ distinct_reasoning_match_count cfgGate "why how"
    ∧ ((classify_by_rules cfgGate "why how" none 5).tier = some Tier.REASONING
      ∧ (classify_by_rules cfgGate "why how" none 5).confidence
        = max (calibrate
              ((max (weightedScoreOf cfgGate "why how" none 5) (3/10) : ℚ) : ℝ)
              (cfgGate.confidence_steepness : ℝ))
            (85/100)) :=
  ⟨by decide, classify_reasoning_override cfgGate "why how" none 5 (by decide)⟩

/-- Witness for the amended C3 at a concrete router whose threshold 1 always
exceeds the logistic confidence. -/
theorem ambiguity_gate_amended_witness :
    reasoning_match_count rAmb.scoring_config "hello" < 2
    ∧ boundaryConfidence rAmb.scoring_config "hello" none 5
      < (rAmb.scoring_config.confidence_threshold : ℝ)
    ∧ ((classify_by_rules rAmb.scoring_config "hello" none 5).tier = none
      ∧ (classify_by_rules rAmb.scoring_config "hello" none 5).score
        = weightedScoreOf rAmb.scoring_config "hello" none 5
      ∧ (classify_by_rules rAmb.scoring_config "hello" none 5).confidence
        = boundaryConfidence rAmb.scoring_config "hello" none 5
      ∧ (classify_by_rules rAmb.scoring_config "hello" none 5).signals
        = signalsOf rAmb.scoring_config "hello" none 5
      ∧ (rAmb.decide (some "hello") none 5 none false).primary = rAmb.default_target
      ∧ (rAmb.decide (some "hello") none 5 none false).chain
        = dedupeTargets (rAmb.default_target :: rAmb.global_fallback_targets)) := by
  have hlt : boundaryConfidence rAmb.scoring_config "hello" none 5
      < (rAmb.scoring_config.confidence_threshold : ℝ) := by
    have h1 : (rAmb.scoring_config.confidence_threshold : ℝ) = 1 := by
      norm_num [rAmb, cfgAmb]
    rw [h1]
    exact calibrate_lt_one _ _
  exact ⟨by decide, hlt,
    ambiguity_gate_amended rAmb (some "hello") none 5 none (by decide) hlt⟩

/-- Witness for the amended C4: two prompts with the same lowercase form,
and system texts `None` and `""` with the same combined text. -/
theorem dimension_text_sources_witness :
    userTextL "Hey" = userTextL "hEy"
    ∧ combinedText none "Hey" = combinedText (some "") "hEy"
    ∧ ((userTextL "Hey" = userTextL "hEy" →
        dimAt cfgGate "Hey" none 1 2 = dimAt cfgGate "hEy" (some "") 2 2)
      ∧ (combinedText none "Hey" = combinedText (some "") "hEy" →
        ∀ i ∈ ([1, 3, 4, 5, 8, 9, 10, 11, 12, 13, 14] : List ℕ),
          dimAt cfgGate "Hey" none 1 i = dimAt cfgGate "hEy" (some "") 2 i)
      ∧ dimAt cfgGate "Hey" none 1 2
        = score_keyword_match (userTextL "Hey") cfgGate.reasoning_keywords
            "reasoningMarkers" "reasoning" 1 2 0 (7/10) 1) :=
  ⟨by decide, by decide,
    dimension_text_sources cfgGate "Hey" "hEy" none (some "") 1 2⟩

/-- Witness for C5: routing disabled over `rAmb`, the default target's
backend fails and the global fallback has no provider configuration, so the
stamped failure of the default target is returned. -/
theorem chat_exhausted_returns_last_error_witness :
    (∀ t ∈ (chatDecision rAmb (fun _ => none) false none []).chain,
      failOrSkip getpW callW t = true)
    ∧ ((lastAttempt getpW (chatDecision rAmb (fun _ => none) false none []).chain
          = none →
        chat rAmb getpW callW (fun _ => none) false none []
          = noRouteResponse rAmb.default_target)
      ∧ (∀ tl,
        lastAttempt getpW (chatDecision rAmb (fun _ => none) false none []).chain
            = some tl →
        chat rAmb getpW callW (fun _ => none) false none []
          = stampResponse ((getpW tl).getD "") tl.model (callW tl))) :=
  ⟨by decide,
    chat_exhausted_returns_last_error rAmb getpW callW (fun _ => none) false none []
      (by decide)⟩

/-- Witness for C7 at concrete ascending boundaries and scores. -/
theorem tier_mapping_monotone_witness :
    ((-1 : ℚ) < 1 ∧ (1 : ℚ) < 2) ∧ (0 : ℚ) ≤ 1
    ∧ tierRank (tierAndDistance ⟨-1, 1, 2⟩ 0).1
      ≤ tierRank (tierAndDistance ⟨-1, 1, 2⟩ 1).1 :=
  ⟨⟨by norm_num, by norm_num⟩, by norm_num,
    tier_mapping_monotone ⟨-1, 1, 2⟩ 0 1 ⟨by norm_num, by norm_num⟩ (by norm_num)⟩

/-- Witness for C8: the classifier confidently selects REASONING via the
override, the REASONING tier is configured, and the preferred target
`("xm", "xp")` appears nowhere in the chain. -/
theorem decide_preferred_not_pinned_witness :
    (classify_by_rules rTier.scoring_config "why how" none 5).tier
      = some Tier.REASONING
    ∧ rTier.getTierTarget Tier.REASONING = some ⟨⟨"rm", "rp"⟩, [⟨"fm", "fp"⟩]⟩
    ∧ ((∀ x ∈ (rTier.decide (some "why how") none 5 (some ⟨"xm", "xp"⟩) false).chain,
        x = RouteTarget.mk "rm" "rp"
        ∨ x ∈ [RouteTarget.mk "fm" "fp"] ∨ x ∈ rTier.global_fallback_targets)
      ∧ ((RouteTarget.mk "xm" "xp" ≠ RouteTarget.mk "rm" "rp"
          ∧ RouteTarget.mk "xm" "xp" ∉ [RouteTarget.mk "fm" "fp"]
          ∧ RouteTarget.mk "xm" "xp" ∉ rTier.global_fallback_targets) →
        RouteTarget.mk "xm" "xp"
          ∉ (rTier.decide (some "why how") none 5 (some ⟨"xm", "xp"⟩) false).chain)) :=
  ⟨by decide, by decide,
    decide_preferred_not_pinned rTier (some "why how") none 5 ⟨"xm", "xp"⟩
      Tier.REASONING ⟨⟨"rm", "rp"⟩, [⟨"fm", "fp"⟩]⟩ (by decide) (by decide)⟩

/-- Witness for C9 at a concrete low-threshold config without reasoning
matches. -/
theorem classify_never_ambiguous_witness :
    reasoning_match_count cfgLow "hello" < 2
    ∧ (0 : ℚ) < cfgLow.confidence_steepness
    ∧ (cfgLow.tier_boundaries.simple_medium < cfgLow.tier_boundaries.medium_complex
      ∧ cfgLow.tier_boundaries.medium_complex < cfgLow.tier_boundaries.complex_reasoning)
    ∧ (0 ≤ (tierAndDistance cfgLow.tier_boundaries
          (weightedScoreOf cfgLow "hello" none 5)).2
      ∧ (1 / 2 : ℝ) ≤ boundaryConfidence cfgLow "hello" none 5
      ∧ (cfgLow.confidence_threshold ≤ 1 / 2 →
          (classify_by_rules cfgLow "hello" none 5).tier ≠ none)) :=
  ⟨by decide, by decide, ⟨by decide, by decide⟩,
    classify_never_ambiguous_at_low_threshold cfgLow "hello" none 5 (by decide)
      (by decide) ⟨by decide, by decide⟩⟩

/-- Witness for C10: a message list whose only user message has structured
content without text parts, so nothing qualifies and the extraction is
empty. -/
theorem extract_latest_user_spec_witness :
    ([⟨"user", .parts [.other]⟩] : List Message).reverse.findSome? userTextOf? = none
    ∧ (extract_latest_user_message [⟨"user", .parts [.other]⟩]
        = (([⟨"user", .parts [.other]⟩] : List Message).reverse.findSome?
            userTextOf?).getD ""
      ∧ (([⟨"user", .parts [.other]⟩] : List Message).reverse.findSome? userTextOf?
            = none →
        chat rAmb getpW callW (fun _ => none) false none [⟨"user", .parts [.other]⟩]
          = chatChain getpW callW rAmb.default_target
              (rAmb.decide (some "")
                (extract_system_prompt [⟨"user", .parts [.other]⟩])
                (estimate_tokens
                  (((extract_system_prompt [⟨"user", .parts [.other]⟩]).getD "")
                    ++ " " ++ ""))
                ((none : Option String).map
                  (fun m => ⟨m, ((fun _ => none : String → Option String) m).getD
                    rAmb.default_target.provider⟩))
                (!false)).chain
              none)) :=
  ⟨by decide,
    extract_latest_user_spec rAmb getpW callW (fun _ => none) false none
      [⟨"user", .parts [.other]⟩]⟩

end Nanobot
